import Mathlib

/-
Shallow embedding of the image-fusion single-page application
(src/assets/App.tsx) and verification of its behavioral contract.

The application state is the tuple of React state variables of the App
component; the event handlers handleImageChange and handleGenerate are
embedded as pure state-transition functions, with file reads and the
network call passed in as explicit results (success or thrown error).
-/

namespace ImageFusion

/-- An uploaded image slot value: base64 payload plus MIME type
(matches the { base64, mimeType } objects stored in image1 / image2). -/
structure ImagePayload where
  base64 : String
  mimeType : String
deriving DecidableEq

/-- Inline image data carried by a content part of a request or response
({ data, mimeType } in the GenAI API). -/
structure InlineData where
  data : String
  mimeType : String
deriving DecidableEq

/-- A content part: either inline image data, or text, or (in a degenerate
response) neither. Mirrors the parts consumed and produced by the API. -/
structure Part where
  inlineData : Option InlineData
  text : Option String
deriving DecidableEq

/-- Content of a response candidate: an optional list of parts
(parts may be absent in the wire format, hence Option). -/
structure Content where
  parts : Option (List Part)
deriving DecidableEq

/-- One response candidate, whose content may be absent. -/
structure Candidate where
  content : Option Content
deriving DecidableEq

/-- A generateContent response: an optional candidates list. -/
structure GenResponse where
  candidates : Option (List Candidate)
deriving DecidableEq

/-- Response modality requested from the model. -/
inductive Modality where
  | IMAGE
  | TEXT
deriving DecidableEq

/-- The generateContent request assembled by handleGenerate: model id,
ordered content parts, and the requested response modalities. -/
structure GenRequest where
  model : String
  parts : List Part
  responseModalities : List Modality
deriving DecidableEq

/-- The React state of the App component: the two image slots, the selected
action, the generated image data URL, the loading flag and the error
message. Option stands for the nullable values. -/
structure AppState where
  image1 : Option ImagePayload
  image2 : Option ImagePayload
  selectedAction : String
  generatedImage : Option String
  isLoading : Bool
  error : Option String
deriving DecidableEq

/-- The initial state of the App component, from the useState initializers. -/
def initialState : AppState :=
  { image1 := none
    image2 := none
    selectedAction := "shaking hands"
    generatedImage := none
    isLoading := false
    error := none }

/-- The values offered by the action dropdown in the rendered markup. -/
def actionOptions : List String :=
  ["shaking hands", "hugging each other", "saluting each other"]

/-- Error message set by the catch branch of handleImageChange. -/
def readFailureMsg : String := "Failed to read image file."

/-- Error message of the missing-inputs early return of handleGenerate. -/
def missingInputsMsg : String := "Please upload both images and select an action."

/-- Error message of the missing-API-key early return of handleGenerate. -/
def missingKeyMsg : String :=
  "API_KEY environment variable not set. Please configure it to use the Gemini API."

/-- Error message set when no inline-image part is found in the response. -/
def noImageMsg : String :=
  "The model did not return an image. Please try a different prompt or images."

/-- Which image slot an upload targets (setImage1 vs setImage2). -/
inductive Slot where
  | one
  | two
deriving DecidableEq

/-- Embedding of handleImageChange. The asynchronous file read is passed in
as its result: on success the data URL string produced by readAsDataURL
together with file.type; on failure the thrown error. On success the base64
body is the segment after the first comma of the data URL (split(',')[1])
and the slot is overwritten; on failure the error message is set and no
slot is touched. The function is total: no branch crashes. -/
def handleImageChange (slot : Slot) (readResult : Except Unit (String × String))
    (s : AppState) : AppState :=
  match readResult with
  | .ok (dataUrl, fileType) =>
      let payload : ImagePayload :=
        { base64 := (dataUrl.split (fun c => c = ',')).getD 1 ""
          mimeType := fileType }
      match slot with
      | .one => { s with image1 := some payload }
      | .two => { s with image2 := some payload }
  | .error _ => { s with error := some readFailureMsg }

/-- Embedding of fileToGenerativePart: wraps a stored payload as an
inlineData content part. -/
def fileToGenerativePart (file : ImagePayload) : Part :=
  { inlineData := some { data := file.base64, mimeType := file.mimeType }
    text := none }

/-- Opening segment of the prompt template literal, before the action. -/
def promptHead : String :=
  "From the two images provided, create a new photorealistic image where the person from the first image and the person from the second image are "

/-- Closing segment of the prompt template literal, after the action. -/
def promptTail : String :=
  ". The background should be neutral and the interaction between the two people should look natural and believable."

/-- The prompt built by handleGenerate, with the selected action spliced
into the template literal. -/
def promptFor (action : String) : String := promptHead ++ action ++ promptTail

/-- The generateContent request assembled by handleGenerate: two inline
image parts followed by the text prompt, image-only response modality. -/
def buildRequest (i1 i2 : ImagePayload) (action : String) : GenRequest :=
  { model := "gemini-2.5-flash-image"
    parts := [fileToGenerativePart i1, fileToGenerativePart i2,
              { inlineData := none, text := some (promptFor action) }]
    responseModalities := [Modality.IMAGE] }

/-- JavaScript falsiness of an optional string (the check !process.env.API_KEY):
true when the value is absent or the empty string. -/
def strOptFalsy (o : Option String) : Bool :=
  match o with
  | none => true
  | some v => v.isEmpty

/-- The synchronous head of handleGenerate, up to the network call: the
missing-inputs early return, the missing-key early return, or (when both
checks pass) the transition to the loading state together with the request
to send. The second component is the network call performed: none means
handleGenerate returned before any call. -/
def dispatchStart (apiKey : Option String) (s : AppState) :
    AppState × Option GenRequest :=
  match s.image1, s.image2 with
  | some i1, some i2 =>
      if s.selectedAction.isEmpty then
        ({ s with error := some missingInputsMsg }, none)
      else if strOptFalsy apiKey then
        ({ s with error := some missingKeyMsg }, none)
      else
        ({ s with isLoading := true, error := none, generatedImage := none },
         some (buildRequest i1 i2 s.selectedAction))
  | _, _ => ({ s with error := some missingInputsMsg }, none)

/-- The scan loop over response parts: return the first part's inlineData
that is present, stopping there (the break in the for loop). -/
def findInline : List Part → Option InlineData
  | [] => none
  | p :: ps =>
      match p.inlineData with
      | some d => some d
      | none => findInline ps

/-- The part list scanned by handleGenerate:
response.candidates?.[0]?.content?.parts ?? []. Optional chaining makes any
absent link collapse to the empty list. -/
def firstCandidateParts (resp : GenResponse) : List Part :=
  match resp.candidates with
  | none => []
  | some [] => []
  | some (c :: _) =>
      match c.content with
      | none => []
      | some ct => ct.parts.getD []

/-- The displayable data URL assembled from an inline-image part. -/
def dataUrlOf (d : InlineData) : String :=
  "data:" ++ d.mimeType ++ ";base64," ++ d.data

/-- The tail of handleGenerate after the network call settles, applied to the
current state: on a response, the first inline-image part (if any) becomes
the generated image, else the no-image error is set; on a thrown error the
wrapped message is set. The finally clause clears isLoading on every branch. -/
def dispatchSettle (s : AppState) (result : Except String GenResponse) : AppState :=
  match result with
  | .ok resp =>
      match findInline (firstCandidateParts resp) with
      | some d => { s with generatedImage := some (dataUrlOf d), isLoading := false }
      | none => { s with error := some noImageMsg, isLoading := false }
  | .error msg =>
      { s with error := some ("An error occurred: " ++ msg), isLoading := false }

/-- Whole-call embedding of handleGenerate: run the synchronous head; if it
performed a call, settle with the network's result. The second component
records the network call made (none = no call was performed). -/
def handleGenerate (apiKey : Option String)
    (network : GenRequest → Except String GenResponse) (s : AppState) :
    AppState × Option GenRequest :=
  match dispatchStart apiKey s with
  | (s1, none) => (s1, none)
  | (s1, some req) => (dispatchSettle s1 (network req), some req)

/-- One observable transition of the application: a file read completing
(either way) for a slot, a dropdown selection (restricted to the rendered
option values), a click of the generate button (enabled only when not
loading and both slots are filled), or an in-flight call settling. -/
inductive Step : AppState → AppState → Prop where
  | upload (slot : Slot) (res : Except Unit (String × String)) (s : AppState) :
      Step s (handleImageChange slot res s)
  | select (a : String) (s : AppState) (h : a ∈ actionOptions) :
      Step s { s with selectedAction := a }
  | generate (apiKey : Option String) (s : AppState)
      (hL : s.isLoading = false) (h1 : s.image1.isSome = true)
      (h2 : s.image2.isSome = true) :
      Step s (dispatchStart apiKey s).1
  | settle (res : Except String GenResponse) (s : AppState)
      (hL : s.isLoading = true) :
      Step s (dispatchSettle s res)

/-- A state the application can reach from its initial state. -/
def Reachable (s : AppState) : Prop :=
  Relation.ReflTransGen Step initialState s

/-- A concrete successful file-read result used in reachability traces. -/
def okRead : Except Unit (String × String) :=
  Except.ok ("data:image/png;base64,AAAA", "image/png")

/-- Trace state: slot one filled from a successful read. -/
def stateA : AppState := handleImageChange Slot.one okRead initialState

/-- Trace state: both slots filled. -/
def stateB : AppState := handleImageChange Slot.two okRead stateA

/-- Trace state: a generate click with a configured key, now loading. -/
def stateC : AppState := (dispatchStart (some "key") stateB).1

/-- A concrete inline-image response part. -/
def imgPart : Part :=
  { inlineData := some { data := "IMG", mimeType := "image/png" }, text := none }

/-- A concrete response whose first candidate carries one inline image. -/
def respWithImage : GenResponse :=
  { candidates := some [{ content := some { parts := some [imgPart] } }] }

/-- Trace state: the call settled successfully, a generated image is shown. -/
def stateD : AppState := dispatchSettle stateC (Except.ok respWithImage)

/-- Trace state: after the success, a file read for slot one fails. -/
def stateE : AppState := handleImageChange Slot.one (Except.error ()) stateD

/-- A concrete state with both slots filled and no request in flight. -/
def readyState : AppState :=
  { image1 := some { base64 := "AAA1", mimeType := "image/png" }
    image2 := some { base64 := "AAA2", mimeType := "image/jpeg" }
    selectedAction := "hugging each other"
    generatedImage := none
    isLoading := false
    error := none }

/-- A concrete response with no candidates list at all. -/
def emptyResp : GenResponse := { candidates := none }

/-- A concrete response whose first candidate has an empty parts list. -/
def emptyPartsResp : GenResponse :=
  { candidates := some [{ content := some { parts := some [] } }] }

/-- handleImageChange never changes the selected action. -/
lemma hic_selectedAction (slot : Slot) (res : Except Unit (String × String))
    (s : AppState) :
    (handleImageChange slot res s).selectedAction = s.selectedAction := by
  cases res with
  | ok pr => cases slot <;> rfl
  | error e => rfl

/-- handleImageChange never changes the loading flag. -/
lemma hic_isLoading (slot : Slot) (res : Except Unit (String × String))
    (s : AppState) :
    (handleImageChange slot res s).isLoading = s.isLoading := by
  cases res with
  | ok pr => cases slot <;> rfl
  | error e => rfl

/-- handleImageChange never changes the generated image. -/
lemma hic_generatedImage (slot : Slot) (res : Except Unit (String × String))
    (s : AppState) :
    (handleImageChange slot res s).generatedImage = s.generatedImage := by
  cases res with
  | ok pr => cases slot <;> rfl
  | error e => rfl

/-- The synchronous head of handleGenerate leaves the state in exactly one of
three shapes: missing-inputs failure, missing-key failure, or the loading
state with cleared outcome payloads. -/
lemma dispatchStart_fst_cases (k : Option String) (s : AppState) :
    (dispatchStart k s).1 = { s with error := some missingInputsMsg } ∨
    (dispatchStart k s).1 = { s with error := some missingKeyMsg } ∨
    (dispatchStart k s).1 =
      { s with isLoading := true, error := none, generatedImage := none } := by
  rcases h1 : s.image1 with _ | i1 <;> rcases h2 : s.image2 with _ | i2 <;>
    simp only [dispatchStart, h1, h2]
  · exact Or.inl trivial
  · exact Or.inl trivial
  · exact Or.inl trivial
  · by_cases ha : s.selectedAction.isEmpty <;> by_cases hk : strOptFalsy k <;>
      simp [ha, hk]

/-- When a slot is empty, the head of handleGenerate is the missing-inputs
early return and no request is produced. -/
lemma dispatchStart_missing (k : Option String) (s : AppState)
    (h : s.image1 = none ∨ s.image2 = none) :
    dispatchStart k s = ({ s with error := some missingInputsMsg }, none) := by
  rcases h1 : s.image1 with _ | i1 <;> rcases h2 : s.image2 with _ | i2 <;>
    simp only [dispatchStart, h1, h2]
  rcases h with h | h
  · rw [h1] at h ; cases h
  · rw [h2] at h ; cases h

/-- When both slots are filled but the action string is empty, the head of
handleGenerate is still the missing-inputs early return. -/
lemma dispatchStart_emptyAction (k : Option String) (s : AppState)
    (i1 i2 : ImagePayload) (h1 : s.image1 = some i1) (h2 : s.image2 = some i2)
    (ha : s.selectedAction.isEmpty = true) :
    dispatchStart k s = ({ s with error := some missingInputsMsg }, none) := by
  simp [dispatchStart, h1, h2, ha]

/-- When the inputs are present but the API key is falsy, the head of
handleGenerate is the missing-key early return and no request is produced. -/
lemma dispatchStart_nokey (k : Option String) (s : AppState)
    (i1 i2 : ImagePayload) (h1 : s.image1 = some i1) (h2 : s.image2 = some i2)
    (ha : s.selectedAction.isEmpty = false) (hk : strOptFalsy k = true) :
    dispatchStart k s = ({ s with error := some missingKeyMsg }, none) := by
  simp [dispatchStart, h1, h2, ha, hk]

/-- When all preconditions pass, the head of handleGenerate enters the
loading state with cleared payloads and produces the request. -/
lemma dispatchStart_go (k : Option String) (s : AppState)
    (i1 i2 : ImagePayload) (h1 : s.image1 = some i1) (h2 : s.image2 = some i2)
    (ha : s.selectedAction.isEmpty = false) (hk : strOptFalsy k = false) :
    dispatchStart k s =
      ({ s with isLoading := true, error := none, generatedImage := none },
       some (buildRequest i1 i2 s.selectedAction)) := by
  simp [dispatchStart, h1, h2, ha, hk]

/-- handleGenerate with an early-returning head performs no call. -/
lemma handleGenerate_of_none (k : Option String)
    (net : GenRequest → Except String GenResponse) (s s1 : AppState)
    (h : dispatchStart k s = (s1, none)) :
    handleGenerate k net s = (s1, none) := by
  simp [handleGenerate, h]

/-- handleGenerate with a call-producing head settles the network result. -/
lemma handleGenerate_of_some (k : Option String)
    (net : GenRequest → Except String GenResponse) (s s1 : AppState)
    (req : GenRequest) (h : dispatchStart k s = (s1, some req)) :
    handleGenerate k net s = (dispatchSettle s1 (net req), some req) := by
  simp [handleGenerate, h]

/-- Every branch of the settled call clears the loading flag
(the finally clause). -/
lemma dispatchSettle_isLoading (s : AppState) (res : Except String GenResponse) :
    (dispatchSettle s res).isLoading = false := by
  cases res with
  | ok resp =>
      rcases hf : findInline (firstCandidateParts resp) with _ | d <;>
        simp only [dispatchSettle, hf]
  | error msg => rfl

/-- Settling a call never changes the selected action. -/
lemma dispatchSettle_selectedAction (s : AppState)
    (res : Except String GenResponse) :
    (dispatchSettle s res).selectedAction = s.selectedAction := by
  cases res with
  | ok resp =>
      rcases hf : findInline (firstCandidateParts resp) with _ | d <;>
        simp only [dispatchSettle, hf]
  | error msg => rfl

/-- A predicate that holds initially and is preserved by every observable
transition holds at every reachable state. -/
lemma reachable_invariant (P : AppState → Prop) (h0 : P initialState)
    (hstep : ∀ s t, P s → Step s t → P t) :
    ∀ s, Reachable s → P s := by
  intro s h
  induction h with
  | refl => exact h0
  | tail hab hbc ih => exact hstep _ _ ih hbc

/-- The scan skips any prefix of parts that carry no inline data. -/
lemma findInline_append_of_none (pre l : List Part)
    (h : ∀ q ∈ pre, q.inlineData = none) :
    findInline (pre ++ l) = findInline l := by
  induction pre with
  | nil => rfl
  | cons q qs ih =>
      have hq : q.inlineData = none := h q (List.mem_cons_self q qs)
      simp only [List.cons_append, findInline, hq]
      exact ih (fun r hr => h r (List.mem_cons_of_mem q hr))

/-- The scan of a list with no inline-data part finds nothing. -/
lemma findInline_eq_none (l : List Part) (h : ∀ q ∈ l, q.inlineData = none) :
    findInline l = none := by
  have := findInline_append_of_none l [] h
  simpa using this

/-- C1: on a response whose first candidate contains an inline-image part,
the settled state's generated image is exactly the data URL
data:mimeType;base64,data assembled from the first such part's fields; the
scan stops there (the conclusion does not depend on the parts after it,
which are universally quantified) and candidates after the first are never
examined. -/
theorem C1_first_inline_image (s : AppState) (resp : GenResponse)
    (pre post : List Part) (p : Part) (d : InlineData)
    (hps : firstCandidateParts resp = pre ++ p :: post)
    (hpre : ∀ q ∈ pre, q.inlineData = none)
    (hp : p.inlineData = some d) :
    dispatchSettle s (Except.ok resp) =
      { s with
        generatedImage := some ("data:" ++ d.mimeType ++ ";base64," ++ d.data),
        isLoading := false } ∧
    findInline (firstCandidateParts resp) = some d ∧
    ∀ c : Candidate, ∀ cs cs2 : List Candidate,
      firstCandidateParts { candidates := some (c :: cs) } =
      firstCandidateParts { candidates := some (c :: cs2) } := by
  have hf : findInline (firstCandidateParts resp) = some d := by
    rw [hps, findInline_append_of_none pre (p :: post) hpre]
    simp [findInline, hp]
  refine ⟨?_, hf, fun c cs cs2 => rfl⟩
  simp only [dispatchSettle, hf, dataUrlOf]

/-- C1 witness: a concrete response whose single candidate carries one
inline image settles to the assembled data URL. -/
theorem C1_witness :
    firstCandidateParts respWithImage = [] ++ imgPart :: [] ∧
    (∀ q ∈ ([] : List Part), q.inlineData = none) ∧
    imgPart.inlineData = some { data := "IMG", mimeType := "image/png" } ∧
    dispatchSettle initialState (Except.ok respWithImage) =
      { initialState with
        generatedImage := some ("data:" ++ "image/png" ++ ";base64," ++ "IMG"),
        isLoading := false } :=
  ⟨rfl, by simp, rfl,
    (C1_first_inline_image initialState respWithImage [] [] imgPart
      { data := "IMG", mimeType := "image/png" } rfl (by simp) rfl).1⟩

/-- C2: when either image slot is empty or the API key is falsy, the whole
handleGenerate call performs no network request, the outcome is a failure
(error is set), the failure message in the missing-image case is exactly
"Please upload both images and select an action.", and the result does not
depend on the network at all. -/
theorem C2_precondition_guard (apiKey : Option String)
    (network : GenRequest → Except String GenResponse) (s : AppState)
    (h : s.image1 = none ∨ s.image2 = none ∨ strOptFalsy apiKey = true) :
    (handleGenerate apiKey network s).2 = none ∧
    (handleGenerate apiKey network s).1.error.isSome = true ∧
    ((s.image1 = none ∨ s.image2 = none) →
      (handleGenerate apiKey network s).1.error =
        some "Please upload both images and select an action.") ∧
    ∀ network2, handleGenerate apiKey network s = handleGenerate apiKey network2 s := by
  rcases h1 : s.image1 with _ | i1
  · have hd := dispatchStart_missing apiKey s (Or.inl h1)
    rw [handleGenerate_of_none apiKey network s _ hd]
    refine ⟨rfl, rfl, fun _ => rfl, fun network2 => ?_⟩
    rw [handleGenerate_of_none apiKey network2 s _ hd]
  · rcases h2 : s.image2 with _ | i2
    · have hd := dispatchStart_missing apiKey s (Or.inr h2)
      rw [handleGenerate_of_none apiKey network s _ hd]
      refine ⟨rfl, rfl, fun _ => rfl, fun network2 => ?_⟩
      rw [handleGenerate_of_none apiKey network2 s _ hd]
    · have hk : strOptFalsy apiKey = true := by
        rcases h with h | h | h
        · rw [h1] at h ; cases h
        · rw [h2] at h ; cases h
        · exact h
      by_cases ha : s.selectedAction.isEmpty = true
      · have hd := dispatchStart_emptyAction apiKey s i1 i2 h1 h2 ha
        rw [handleGenerate_of_none apiKey network s _ hd]
        refine ⟨rfl, rfl, fun _ => rfl, fun network2 => ?_⟩
        rw [handleGenerate_of_none apiKey network2 s _ hd]
      · have ha2 : s.selectedAction.isEmpty = false := by
          cases hae : s.selectedAction.isEmpty
          · rfl
          · exact absurd hae ha
        have hd := dispatchStart_nokey apiKey s i1 i2 h1 h2 ha2 hk
        rw [handleGenerate_of_none apiKey network s _ hd]
        refine ⟨rfl, rfl, ?_, fun network2 => ?_⟩
        · intro hcontra
          rcases hcontra with hc | hc <;> cases hc
        · rw [handleGenerate_of_none apiKey network2 s _ hd]

/-- C2 witness: dispatching from the initial state (both slots empty, no
key) performs no call and yields the exact missing-inputs message. -/
theorem C2_witness :
    (initialState.image1 = none ∨ initialState.image2 = none ∨
      strOptFalsy none = true) ∧
    (handleGenerate none (fun _ => Except.ok emptyResp) initialState).2 = none ∧
    (handleGenerate none (fun _ => Except.ok emptyResp) initialState).1.error =
      some "Please upload both images and select an action." := by
  have hc := C2_precondition_guard none (fun _ => Except.ok emptyResp)
    initialState (Or.inl rfl)
  exact ⟨Or.inl rfl, hc.1, hc.2.2.1 (Or.inl rfl)⟩

/-- C3: a response with zero inline-image parts among the scanned parts
settles to a failure with exactly the no-image message. -/
theorem C3_no_image_failure (s : AppState) (resp : GenResponse)
    (h : ∀ q ∈ firstCandidateParts resp, q.inlineData = none) :
    dispatchSettle s (Except.ok resp) =
      { s with
        error := some "The model did not return an image. Please try a different prompt or images.",
        isLoading := false } := by
  have hf := findInline_eq_none _ h
  simp only [dispatchSettle, hf]
  rfl

/-- C3 witness: a concrete response with no candidates settles to the
no-image failure. -/
theorem C3_witness :
    (∀ q ∈ firstCandidateParts emptyResp, q.inlineData = none) ∧
    dispatchSettle initialState (Except.ok emptyResp) =
      { initialState with
        error := some "The model did not return an image. Please try a different prompt or images.",
        isLoading := false } :=
  ⟨by simp [firstCandidateParts, emptyResp],
   C3_no_image_failure initialState emptyResp
     (by simp [firstCandidateParts, emptyResp])⟩

/-- C4: a dispatch that passes the preconditions first enters the loading
state, and for every way the call can settle (image found, no image found,
or a thrown error) the settled state has left loading and holds exactly one
of a generated image (with no error) or an error (with no image). -/
theorem C4_loading_then_settles (apiKey : Option String) (s : AppState)
    (i1 i2 : ImagePayload) (h1 : s.image1 = some i1) (h2 : s.image2 = some i2)
    (ha : s.selectedAction.isEmpty = false) (hk : strOptFalsy apiKey = false) :
    ∃ loading req, dispatchStart apiKey s = (loading, some req) ∧
      loading.isLoading = true ∧
      ∀ res : Except String GenResponse,
        (dispatchSettle loading res).isLoading = false ∧
        (((dispatchSettle loading res).generatedImage.isSome = true ∧
          (dispatchSettle loading res).error = none) ∨
         ((dispatchSettle loading res).error.isSome = true ∧
          (dispatchSettle loading res).generatedImage = none)) := by
  refine ⟨{ s with isLoading := true, error := none, generatedImage := none },
          buildRequest i1 i2 s.selectedAction,
          dispatchStart_go apiKey s i1 i2 h1 h2 ha hk, rfl, ?_⟩
  intro res
  refine ⟨dispatchSettle_isLoading _ _, ?_⟩
  cases res with
  | ok resp =>
      rcases hf : findInline (firstCandidateParts resp) with _ | d
      · refine Or.inr ⟨?_, ?_⟩ <;> simp [dispatchSettle, hf]
      · refine Or.inl ⟨?_, ?_⟩ <;> simp [dispatchSettle, hf]
  | error msg =>
      refine Or.inr ⟨?_, ?_⟩ <;> simp [dispatchSettle]

/-- C4 witness: a concrete ready state with a configured key enters loading
and settles to exactly one outcome for every call result. -/
theorem C4_witness :
    readyState.image1 = some { base64 := "AAA1", mimeType := "image/png" } ∧
    readyState.image2 = some { base64 := "AAA2", mimeType := "image/jpeg" } ∧
    readyState.selectedAction.isEmpty = false ∧
    strOptFalsy (some "key") = false ∧
    (∃ loading req, dispatchStart (some "key") readyState = (loading, some req) ∧
      loading.isLoading = true ∧
      ∀ res : Except String GenResponse,
        (dispatchSettle loading res).isLoading = false ∧
        (((dispatchSettle loading res).generatedImage.isSome = true ∧
          (dispatchSettle loading res).error = none) ∨
         ((dispatchSettle loading res).error.isSome = true ∧
          (dispatchSettle loading res).generatedImage = none))) :=
  ⟨rfl, rfl, by decide, by decide,
    C4_loading_then_settles (some "key") readyState
      { base64 := "AAA1", mimeType := "image/png" }
      { base64 := "AAA2", mimeType := "image/jpeg" }
      rfl rfl (by decide) (by decide)⟩

/-- C5 counterexample: the claim that no reachable state simultaneously
holds a success image and a failure message is false: after a successful
fusion, a failed file read sets the error without clearing the generated
image, reaching a state with both present. -/
theorem C5_counterexample :
    Reachable stateE ∧ stateE.generatedImage.isSome = true ∧
    stateE.error.isSome = true := by
  refine ⟨?_, by decide, by decide⟩
  have s1 : Step initialState stateA := Step.upload Slot.one okRead initialState
  have s2 : Step stateA stateB := Step.upload Slot.two okRead stateA
  have s3 : Step stateB stateC :=
    Step.generate (some "key") stateB (by decide) (by decide) (by decide)
  have s4 : Step stateC stateD :=
    Step.settle (Except.ok respWithImage) stateC (by decide)
  have s5 : Step stateD stateE := Step.upload Slot.one (Except.error ()) stateD
  exact Relation.ReflTransGen.tail
    (Relation.ReflTransGen.tail
      (Relation.ReflTransGen.tail
        (Relation.ReflTransGen.tail (Relation.ReflTransGen.single s1) s2) s3) s4) s5

/-- C5 (amended): outcome is tracked by independent variables, so full
exactly-one exclusivity fails (see the counterexample); what does hold at
every reachable state is that a loading state never carries a generated
image. -/
theorem C5_loading_excludes_success (s : AppState) (h : Reachable s) :
    ¬(s.isLoading = true ∧ s.generatedImage.isSome = true) := by
  have inv : ∀ t, Reachable t → (t.isLoading = true → t.generatedImage = none) := by
    refine reachable_invariant _ (fun _ => rfl) ?_
    intro s0 t hp hst
    cases hst with
    | upload slot res =>
        intro hL
        rw [hic_isLoading] at hL
        rw [hic_generatedImage]
        exact hp hL
    | select a s9 ha => intro hL ; exact hp hL
    | generate key hL h1 h2 =>
        rcases dispatchStart_fst_cases key s0 with hc | hc | hc <;> rw [hc]
        · intro hL2 ; exact hp hL2
        · intro hL2 ; exact hp hL2
        · intro _ ; rfl
    | settle res hL =>
        intro hL2
        rw [dispatchSettle_isLoading] at hL2
        cases hL2
  rintro ⟨hL, him⟩
  rw [inv s h hL] at him
  cases him

/-- C5 witness: the amended invariant applied at the initial state. -/
theorem C5_witness :
    Reachable initialState ∧
    ¬(initialState.isLoading = true ∧ initialState.generatedImage.isSome = true) :=
  ⟨Relation.ReflTransGen.refl,
   C5_loading_excludes_success initialState Relation.ReflTransGen.refl⟩

/-- C6: every dispatch that starts a new request (passes the precondition
checks) transitions to the loading state with the prior generated image and
error cleared, producing the request to send. -/
theorem C6_dispatch_resets_then_loads (apiKey : Option String) (s : AppState)
    (i1 i2 : ImagePayload) (h1 : s.image1 = some i1) (h2 : s.image2 = some i2)
    (ha : s.selectedAction.isEmpty = false) (hk : strOptFalsy apiKey = false) :
    dispatchStart apiKey s =
      ({ s with isLoading := true, error := none, generatedImage := none },
       some (buildRequest i1 i2 s.selectedAction)) :=
  dispatchStart_go apiKey s i1 i2 h1 h2 ha hk

/-- C6 witness: the reset-and-load transition at a concrete ready state. -/
theorem C6_witness :
    readyState.image1 = some { base64 := "AAA1", mimeType := "image/png" } ∧
    readyState.image2 = some { base64 := "AAA2", mimeType := "image/jpeg" } ∧
    readyState.selectedAction.isEmpty = false ∧
    strOptFalsy (some "key") = false ∧
    dispatchStart (some "key") readyState =
      ({ readyState with isLoading := true, error := none, generatedImage := none },
       some (buildRequest { base64 := "AAA1", mimeType := "image/png" }
         { base64 := "AAA2", mimeType := "image/jpeg" } readyState.selectedAction)) :=
  ⟨rfl, rfl, by decide, by decide,
    C6_dispatch_resets_then_loads (some "key") readyState
      { base64 := "AAA1", mimeType := "image/png" }
      { base64 := "AAA2", mimeType := "image/jpeg" }
      rfl rfl (by decide) (by decide)⟩

/-- C7: every request built for the network call lists, in order, the first
image as inline data, the second image as inline data, then the text
prompt; it requests image-only output modality; and the prompt embeds the
selected action verbatim between the two fixed template segments. -/
theorem C7_request_shape (i1 i2 : ImagePayload) (a : String) :
    (buildRequest i1 i2 a).parts =
      [ { inlineData := some { data := i1.base64, mimeType := i1.mimeType }, text := none },
        { inlineData := some { data := i2.base64, mimeType := i2.mimeType }, text := none },
        { inlineData := none, text := some (promptFor a) } ] ∧
    (buildRequest i1 i2 a).responseModalities = [Modality.IMAGE] ∧
    ∃ b c, promptFor a = b ++ a ++ c :=
  ⟨rfl, rfl, ⟨promptHead, promptTail, rfl⟩⟩

/-- C8 counterexample: the message surfaced on a failed read is not the
claimed "Failed to read image file": the code appends a trailing period. -/
theorem C8_counterexample :
    (handleImageChange Slot.one (Except.error ()) initialState).error ≠
      some "Failed to read image file" := by decide

/-- C8 (amended): on a failed file read the intake surfaces exactly
"Failed to read image file." (with a trailing period), populates no image
slot, and leaves both slots and any prior generated image untouched; the
handler is total, so no input crashes it. -/
theorem C8_read_failure (slot : Slot) (s : AppState) (e : Unit) :
    (handleImageChange slot (Except.error e) s).error =
      some "Failed to read image file." ∧
    (handleImageChange slot (Except.error e) s).image1 = s.image1 ∧
    (handleImageChange slot (Except.error e) s).image2 = s.image2 ∧
    (handleImageChange slot (Except.error e) s).generatedImage = s.generatedImage :=
  ⟨rfl, rfl, rfl, rfl⟩

/-- C9: when the candidates list, the first candidate's content, or its
parts list is absent or empty, the scan sees an empty part list (no crash:
the function is total) and the outcome is the no-image failure; the parts
of candidates after the first are never examined. -/
theorem C9_degenerate_response (s : AppState) (resp : GenResponse)
    (h : resp.candidates = none ∨ resp.candidates = some [] ∨
      ∃ c cs, resp.candidates = some (c :: cs) ∧
        (c.content = none ∨
          ∃ ct, c.content = some ct ∧ (ct.parts = none ∨ ct.parts = some []))) :
    firstCandidateParts resp = [] ∧
    dispatchSettle s (Except.ok resp) =
      { s with error := some noImageMsg, isLoading := false } ∧
    ∀ c : Candidate, ∀ cs cs2 : List Candidate,
      firstCandidateParts { candidates := some (c :: cs) } =
      firstCandidateParts { candidates := some (c :: cs2) } := by
  have hparts : firstCandidateParts resp = [] := by
    rcases h with h | h | ⟨c, cs, hc, hrest⟩
    · simp [firstCandidateParts, h]
    · simp [firstCandidateParts, h]
    · rcases hrest with hct | ⟨ct, hct, hp⟩
      · simp [firstCandidateParts, hc, hct]
      · rcases hp with hp | hp <;> simp [firstCandidateParts, hc, hct, hp]
  have hf : findInline (firstCandidateParts resp) = none := by rw [hparts] ; rfl
  refine ⟨hparts, ?_, fun c cs cs2 => rfl⟩
  simp only [dispatchSettle, hf]

/-- C9 witness: a concrete response whose first candidate has an empty
parts list collapses to the empty scan and the no-image failure. -/
theorem C9_witness :
    (emptyPartsResp.candidates = none ∨ emptyPartsResp.candidates = some [] ∨
      ∃ c cs, emptyPartsResp.candidates = some (c :: cs) ∧
        (c.content = none ∨
          ∃ ct, c.content = some ct ∧ (ct.parts = none ∨ ct.parts = some []))) ∧
    firstCandidateParts emptyPartsResp = [] ∧
    dispatchSettle initialState (Except.ok emptyPartsResp) =
      { initialState with error := some noImageMsg, isLoading := false } := by
  have h : emptyPartsResp.candidates = none ∨ emptyPartsResp.candidates = some [] ∨
      ∃ c cs, emptyPartsResp.candidates = some (c :: cs) ∧
        (c.content = none ∨
          ∃ ct, c.content = some ct ∧ (ct.parts = none ∨ ct.parts = some [])) :=
    Or.inr (Or.inr ⟨_, _, rfl, Or.inr ⟨_, rfl, Or.inr rfl⟩⟩)
  have hc := C9_degenerate_response initialState emptyPartsResp h
  exact ⟨h, hc.1, hc.2.1⟩

/-- C10: the selected action starts as "shaking hands" and at every
reachable state is one of the three dropdown values, hence non-empty; so
whenever both image slots are filled, no dispatch can ever produce the
missing-inputs failure message. -/
theorem C10_action_always_valid (s : AppState) (h : Reachable s) :
    initialState.selectedAction = "shaking hands" ∧
    s.selectedAction ∈ actionOptions ∧
    s.selectedAction.isEmpty = false ∧
    (s.image1.isSome = true → s.image2.isSome = true →
      ∀ apiKey, (dispatchStart apiKey s).1.error ≠ some missingInputsMsg) := by
  have inv : ∀ t, Reachable t → t.selectedAction ∈ actionOptions := by
    refine reachable_invariant _ (by decide) ?_
    intro s0 t hp hst
    cases hst with
    | upload slot res => rw [hic_selectedAction] ; exact hp
    | select a s9 ha => exact ha
    | generate key hL h1 h2 =>
        rcases dispatchStart_fst_cases key s0 with hc | hc | hc <;> rw [hc] <;> exact hp
    | settle res hL => rw [dispatchSettle_selectedAction] ; exact hp
  have hmem := inv s h
  have hne : s.selectedAction.isEmpty = false := by
    have hall : ∀ x ∈ actionOptions, x.isEmpty = false := by decide
    exact hall _ hmem
  refine ⟨rfl, hmem, hne, ?_⟩
  intro hi1 hi2 apiKey
  obtain ⟨i1, h1⟩ := Option.isSome_iff_exists.mp hi1
  obtain ⟨i2, h2⟩ := Option.isSome_iff_exists.mp hi2
  cases hk : strOptFalsy apiKey
  · rw [dispatchStart_go apiKey s i1 i2 h1 h2 hne hk]
    simp
  · rw [dispatchStart_nokey apiKey s i1 i2 h1 h2 hne hk]
    simp [missingKeyMsg, missingInputsMsg]

/-- C10 witness: the invariant applied at the initial state. -/
theorem C10_witness :
    Reachable initialState ∧
    initialState.selectedAction = "shaking hands" ∧
    initialState.selectedAction ∈ actionOptions ∧
    initialState.selectedAction.isEmpty = false ∧
    (initialState.image1.isSome = true → initialState.image2.isSome = true →
      ∀ apiKey, (dispatchStart apiKey initialState).1.error ≠ some missingInputsMsg) := by
  have h := C10_action_always_valid initialState Relation.ReflTransGen.refl
  exact ⟨Relation.ReflTransGen.refl, h.1, h.2.1, h.2.2.1, h.2.2.2⟩

end ImageFusion
